import Mathlib

/-!
Shallow embedding of the Drape engine facade
(`drape_frontend/drape_engine.cpp`) of the omim map renderer.

The facade translates every public operation into facade-local state
updates plus a trace of observable effects: messages posted through the
`ThreadsCommutator` to one of the two worker contexts, `Blocker.Wait`
rendezvous, user events forwarded to the frontend renderer, and GUI
surface-size updates.  Each C++ member function is embedded as a pure
Lean function from the facade state (and the call's arguments) to the
new state together with the ordered list of effects it emits.
-/

/-- 2-D point with rational coordinates, standing in for `m2::PointD`. -/
structure PointD where
  x : ℚ
  y : ℚ
deriving DecidableEq, Repr

/-- Triangle of the choose-position bound area, standing in for `m2::TriangleD`. -/
structure TriangleD where
  p1 : PointD
  p2 : PointD
  p3 : PointD
deriving DecidableEq, Repr

/-- Axis-aligned rectangle, standing in for `m2::RectD`. -/
structure RectD where
  minX : ℚ
  minY : ℚ
  maxX : ℚ
  maxY : ℚ
deriving DecidableEq, Repr

/-- `m2::RectD::IsRectInside`: the argument rectangle lies inside `self`. -/
def RectD.IsRectInside (self r : RectD) : Bool :=
  decide (self.minX ≤ r.minX) && decide (r.maxX ≤ self.maxX) &&
  decide (self.minY ≤ r.minY) && decide (r.maxY ≤ self.maxY)

/-- The two worker execution contexts of `ThreadsCommutator`. -/
inductive ThreadName
  | RenderThread
  | ResourceUploadThread
deriving DecidableEq, Repr

/-- The three message priority lanes (`MessagePriority`). -/
inductive MessagePriority
  | High
  | Normal
  | Low
deriving DecidableEq, Repr

/-- `location::EMyPositionMode`. -/
inductive EMyPositionMode
  | PendingPosition
  | NotFollowNoPosition
  | NotFollow
  | Follow
  | FollowAndRotate
deriving DecidableEq, Repr

/-- `ChangeMyPositionModeMessage::EChangeType`. -/
inductive EChangeType
  | SwitchNextMode
  | LoseLocation
  | StopFollowing
deriving DecidableEq, Repr

/-- `traffic::SpeedGroup`. -/
inductive SpeedGroup
  | G0
  | G1
  | G2
  | G3
  | G4
  | G5
  | TempBlock
  | Unknown
deriving DecidableEq, Repr

/-- Traffic coloring: road-segment identifier to speed group, the payload of
`traffic::TrafficInfo::GetColoring()`. -/
abbrev TrafficColoring := List (Nat × SpeedGroup)

/-- The part of `traffic::TrafficInfo` the facade reads: the mwm identifier
and the coloring map. -/
structure TrafficInfo where
  mwmId : Nat
  coloring : TrafficColoring
deriving DecidableEq, Repr

/-- Custom symbols payload (`CustomSymbols`, a feature-to-symbol map);
the facade forwards it opaquely. -/
abbrev CustomSymbols := List (Nat × Nat)

/-- The messages posted by the facade that the claims mention, mirroring
`message_subclasses.hpp` constructors and their payloads (opaque payloads
such as the route segment body are elided). -/
inductive Message
  | UpdateMapStyleMessage
  | FindVisiblePOIMessage (glbPoint : PointD)
  | GetSelectedObjectMessage
  | GetMyPositionMessage
  | GuiRecacheMessage (needResetOldGui : Bool)
  | MapShapesRecacheMessage
  | ShowChoosePositionMarkMessage
  | RecoverGLResourcesMessage
  | ChangeMyPositionModeMessage (change : EChangeType)
  | SetAddNewPlaceModeMessage (enable : Bool) (boundAreaTriangles : List TriangleD)
      (enableKineticScroll : Bool) (hasPosition : Bool) (position : PointD)
  | SetKineticScrollEnabledMessage (enabled : Bool)
  | AddRouteSegmentMessage (segmentId : Nat)
  | AddRoutePreviewSegmentMessage (segmentId : Nat) (startPt : PointD) (finishPt : PointD)
  | AddCustomSymbolsMessage (symbols : CustomSymbols)
  | UpdateTrafficMessage (segmentsColoring : List (Nat × TrafficColoring))
deriving DecidableEq, Repr

/-- Which messages carry a `Blocker` (the blocking-call messages derive
from `BaseBlockingMessage` / carry an `UpdateMapStyleMessage::Blocker`). -/
def Message.carriesBlocker : Message → Bool
  | .UpdateMapStyleMessage => true
  | .FindVisiblePOIMessage _ => true
  | .GetSelectedObjectMessage => true
  | .GetMyPositionMessage => true
  | _ => false

/-- The `dp::DrapeID` a creation message carries, if any. -/
def Message.attachedDrapeID : Message → Option Nat
  | .AddRouteSegmentMessage id => some id
  | .AddRoutePreviewSegmentMessage id _ _ => some id
  | _ => none

/-- User events forwarded to the frontend renderer through
`DrapeEngine::AddUserEvent` (only the resize event matters here). -/
inductive UserEvent
  | ResizeEvent (w : Nat) (h : Nat)
deriving DecidableEq, Repr

/-- One observable effect of a facade operation. -/
inductive Event
  | post (target : ThreadName) (msg : Message) (p : MessagePriority)
  | wait
  | userEvent (e : UserEvent)
  | guiSetSurfaceSize (w : Nat) (h : Nat)
deriving DecidableEq, Repr

/-- `df::Viewport`: pixel origin and size. -/
structure Viewport where
  x0 : Nat
  y0 : Nat
  width : Nat
  height : Nat
deriving DecidableEq, Repr

/-- `Viewport::SetViewport`. -/
def Viewport.SetViewport (_v : Viewport) (x0 y0 w h : Nat) : Viewport :=
  ⟨x0, y0, w, h⟩

/-- The facade-local mutable fields of `DrapeEngine` that the claims
touch: the viewport, the choose-position-mode flag, the tracked
kinetic-scroll flag and the `DrapeID` counter. -/
structure EngineState where
  viewport : Viewport
  choosePositionMode : Bool
  kineticScrollEnabled : Bool
  drapeIdGenerator : Nat
deriving DecidableEq, Repr

/-- `DrapeEngine::GenerateDrapeID`: under the generator mutex, increment
the counter and return it.  The lock makes the increment-and-read one
atomic step with no other logic inside, which the embedding renders as a
single state transition whose only effect is that increment. -/
def DrapeEngine.GenerateDrapeID (s : EngineState) : EngineState × Nat :=
  ({ s with drapeIdGenerator := s.drapeIdGenerator + 1 }, s.drapeIdGenerator + 1)

/-- The identifiers returned by `n` successive `GenerateDrapeID` calls. -/
def DrapeEngine.generateSeq : EngineState → Nat → List Nat
  | _, 0 => []
  | s, n + 1 =>
    (DrapeEngine.GenerateDrapeID s).2 ::
      DrapeEngine.generateSeq (DrapeEngine.GenerateDrapeID s).1 n

/-- `DrapeEngine::RecacheGui`: posts a `GuiRecacheMessage` at High
priority to the resource-upload context. -/
def DrapeEngine.RecacheGui (needResetOldGui : Bool) : List Event :=
  [.post .ResourceUploadThread (.GuiRecacheMessage needResetOldGui) .High]

/-- `DrapeEngine::RecacheMapShapes`: posts a `MapShapesRecacheMessage`
at Normal priority to the resource-upload context. -/
def DrapeEngine.RecacheMapShapes : List Event :=
  [.post .ResourceUploadThread .MapShapesRecacheMessage .Normal]

/-- `DrapeEngine::StopLocationFollow`: posts a
`ChangeMyPositionModeMessage(StopFollowing)` at High priority to the
render context. -/
def DrapeEngine.StopLocationFollow : List Event :=
  [.post .RenderThread (.ChangeMyPositionModeMessage .StopFollowing) .High]

/-- `DrapeEngine::AddUserEvent`: forwards a user event to the frontend
renderer (the Render worker's user event stream). -/
def DrapeEngine.AddUserEvent (e : UserEvent) : List Event :=
  [.userEvent e]

/-- `DrapeEngine::ResizeImpl`: updates the GUI surface size, sets the
viewport to origin `(0,0)` with the new dimensions, and forwards one
resize user event to the Render worker. -/
def DrapeEngine.ResizeImpl (s : EngineState) (w h : Nat) : EngineState × List Event :=
  ({ s with viewport := s.viewport.SetViewport 0 0 w h },
   Event.guiSetSurfaceSize w h :: DrapeEngine.AddUserEvent (.ResizeEvent w h))

/-- `DrapeEngine::Resize`: calls `ResizeImpl` only when the requested
dimensions differ from the current viewport's. -/
def DrapeEngine.Resize (s : EngineState) (w h : Nat) : EngineState × List Event :=
  if s.viewport.height ≠ h ∨ s.viewport.width ≠ w then
    DrapeEngine.ResizeImpl s w h
  else
    (s, [])

/-- `DrapeEngine::Update`: re-posts the choose-position marker when the
mode is active, recaches the GUI and map shapes, posts a
`RecoverGLResourcesMessage` at High priority to the render context, and
applies `ResizeImpl` unconditionally. -/
def DrapeEngine.Update (s : EngineState) (w h : Nat) : EngineState × List Event :=
  let markEvents : List Event :=
    if s.choosePositionMode then
      [.post .ResourceUploadThread .ShowChoosePositionMarkMessage .High]
    else []
  let r := DrapeEngine.ResizeImpl s w h
  (r.1,
   markEvents ++ DrapeEngine.RecacheGui false ++ DrapeEngine.RecacheMapShapes ++
   [.post .RenderThread .RecoverGLResourcesMessage .High] ++ r.2)

/-- `DrapeEngine::UpdateMapStyle`: posts the blocker-carrying
`UpdateMapStyleMessage` at High priority to the render context, waits on
the blocker, then recaches the GUI. -/
def DrapeEngine.UpdateMapStyle : List Event :=
  [.post .RenderThread .UpdateMapStyleMessage .High, .wait] ++ DrapeEngine.RecacheGui false

/-- `DrapeEngine::GetVisiblePOI`: posts the blocker-carrying
`FindVisiblePOIMessage` at High priority to the render context and waits
before returning the result slot. -/
def DrapeEngine.GetVisiblePOI (glbPoint : PointD) : List Event :=
  [.post .RenderThread (.FindVisiblePOIMessage glbPoint) .High, .wait]

/-- `DrapeEngine::GetSelectedObject`: posts the blocker-carrying
`GetSelectedObjectMessage` at High priority to the render context and
waits before returning the result slot. -/
def DrapeEngine.GetSelectedObject : List Event :=
  [.post .RenderThread .GetSelectedObjectMessage .High, .wait]

/-- `DrapeEngine::GetMyPosition`: posts the blocker-carrying
`GetMyPositionMessage` at High priority to the render context and waits
before returning the result slot. -/
def DrapeEngine.GetMyPosition : List Event :=
  [.post .RenderThread .GetMyPositionMessage .High, .wait]

/-- `DrapeEngine::EnableChoosePositionMode`: records the mode flag; on
entry stops location follow, requests the choose-position marker upload
and forces kinetic scroll off in the posted mode-set message; on exit
forces a GUI re-cache and posts the tracked kinetic-scroll flag's
current value.  The tracked flag itself is never written. -/
def DrapeEngine.EnableChoosePositionMode (s : EngineState) (enable : Bool)
    (boundAreaTriangles : List TriangleD) (hasPosition : Bool) (position : PointD) :
    EngineState × List Event :=
  let s1 := { s with choosePositionMode := enable }
  let kineticScroll := s.kineticScrollEnabled
  if enable then
    (s1, DrapeEngine.StopLocationFollow ++
         [.post .ResourceUploadThread .ShowChoosePositionMarkMessage .High,
          .post .RenderThread
            (.SetAddNewPlaceModeMessage enable boundAreaTriangles false hasPosition position)
            .High])
  else
    (s1, DrapeEngine.RecacheGui true ++
         [.post .RenderThread
            (.SetAddNewPlaceModeMessage enable boundAreaTriangles kineticScroll hasPosition position)
            .High])

/-- `DrapeEngine::SetKineticScrollEnabled`: always records the tracked
flag; posts the `SetKineticScrollEnabledMessage` only when not in
choose-position mode. -/
def DrapeEngine.SetKineticScrollEnabled (s : EngineState) (enabled : Bool) :
    EngineState × List Event :=
  let s1 := { s with kineticScrollEnabled := enabled }
  if s1.choosePositionMode then
    (s1, [])
  else
    (s1, [.post .RenderThread (.SetKineticScrollEnabledMessage s1.kineticScrollEnabled) .High])

/-- `DrapeEngine::AddRouteSegment`: allocates a fresh `DrapeID`, posts
the creation message carrying it to the resource-upload context, and
returns it (the route-segment body payload is elided). -/
def DrapeEngine.AddRouteSegment (s : EngineState) : EngineState × List Event × Nat :=
  let r := DrapeEngine.GenerateDrapeID s
  (r.1, ([.post .ResourceUploadThread (.AddRouteSegmentMessage r.2) .Normal], r.2))

/-- `DrapeEngine::AddRoutePreviewSegment`: allocates a fresh `DrapeID`,
posts the creation message carrying it to the render context, and
returns it. -/
def DrapeEngine.AddRoutePreviewSegment (s : EngineState) (startPt finishPt : PointD) :
    EngineState × List Event × Nat :=
  let r := DrapeEngine.GenerateDrapeID s
  (r.1, ([.post .RenderThread (.AddRoutePreviewSegmentMessage r.2 startPt finishPt) .Normal], r.2))

/-- `DrapeEngine::AddCustomSymbols`: posts one creation message to the
resource-upload context; no `DrapeID` is generated or attached. -/
def DrapeEngine.AddCustomSymbols (s : EngineState) (symbols : CustomSymbols) :
    EngineState × List Event :=
  (s, [.post .ResourceUploadThread (.AddCustomSymbolsMessage symbols) .Normal])

/-- `DrapeEngine::UpdateTraffic`, parameterised by whether this is a
debug build (the `#ifdef DEBUG` assertion loop).  Returns `none` when
the debug assertion fires, otherwise the (possibly empty) event list.
The facade state is never read or written by this operation. -/
def DrapeEngine.UpdateTraffic (debugBuild : Bool) (info : TrafficInfo) :
    Option (List Event) :=
  if info.coloring.isEmpty then
    some []
  else if debugBuild &&
      info.coloring.any (fun p =>
        match p.2 with
        | SpeedGroup.Unknown => true
        | _ => false) then
    none
  else
    some [.post .ResourceUploadThread
      (.UpdateTrafficMessage [(info.mwmId, info.coloring)]) .Normal]

/-- Constant `kMinScaleFactor` in `DrapeEngine::SetFontScaleFactor`. -/
def kMinScaleFactor : ℚ := 1 / 2

/-- Constant `kMaxScaleFactor` in `DrapeEngine::SetFontScaleFactor`. -/
def kMaxScaleFactor : ℚ := 2

/-- Modelled from the spec: `my::clamp` of the base library is absent
from `src/`; the spec describes the font scale as "clamped to the
documented maximum/minimum", i.e. values above the maximum map to the
maximum, values below the minimum map to the minimum, and in-range
values pass through. -/
def myClamp (x xmin xmax : ℚ) : ℚ :=
  if x > xmax then xmax else if x < xmin then xmin else x

/-- `DrapeEngine::SetFontScaleFactor`: the scale actually applied to the
visual parameters is the clamped request. -/
def DrapeEngine.SetFontScaleFactor (scaleFactor : ℚ) : ℚ :=
  myClamp scaleFactor kMinScaleFactor kMaxScaleFactor

/-- The steps of `DrapeEngine::~DrapeEngine`, in program order. -/
inductive TeardownStep
  | frontendTeardown
  | backendTeardown
  | threadCommutatorReset
  | frontendReset
  | backendReset
  | drapeGuiDestroy
  | textureManagerRelease
deriving DecidableEq, Repr

/-- The destructor's step sequence: tear down the frontend (Render) and
backend (Resource-Upload) renderers, reset the commutator, reset both
renderer pointers, destroy the `DrapeGui` singleton, and finally release
the texture manager. -/
def DrapeEngine.destructorSteps : List TeardownStep :=
  [.frontendTeardown, .backendTeardown, .threadCommutatorReset,
   .frontendReset, .backendReset, .drapeGuiDestroy, .textureManagerRelease]

/-- The initial position-tracking-mode computation in the
`DrapeEngine::DrapeEngine` constructor.  `initialModeExplicit` is
`params.m_initialMyPositionMode.second`, `storedMode` the result of
`settings::Get(kLocationStateMode)` (which overwrites `mode` on
success), `storedScreenClipRect` the result of
`settings::Get("ScreenClipRect")`, and `worldRect` is
`df::GetWorldRect()` (a constant of a unit outside `src/`, passed as a
parameter). -/
def DrapeEngine.initialMyPositionMode (initialMode : EMyPositionMode)
    (initialModeExplicit : Bool) (storedMode : Option EMyPositionMode)
    (storedScreenClipRect : Option RectD) (worldRect : RectD) : EMyPositionMode :=
  let mode := if initialModeExplicit then initialMode else storedMode.getD initialMode
  if !initialModeExplicit && storedMode.isNone then
    EMyPositionMode.PendingPosition
  else if mode = EMyPositionMode.FollowAndRotate then
    if (match storedScreenClipRect with
        | some rect => worldRect.IsRectInside rect
        | none => false) then
      mode
    else
      EMyPositionMode.Follow
  else
    mode

/-- The same computation stated in the spec's words: no explicit and no
stored mode gives the default pending mode; otherwise a follow-and-rotate
mode whose remembered screen extent is absent or outside the world
bounds is downgraded to plain follow; all other cases keep the supplied
or stored mode unchanged. -/
def initialMyPositionModeSpec (initialMode : EMyPositionMode)
    (initialModeExplicit : Bool) (storedMode : Option EMyPositionMode)
    (storedScreenClipRect : Option RectD) (worldRect : RectD) : EMyPositionMode :=
  if !initialModeExplicit && storedMode.isNone then
    EMyPositionMode.PendingPosition
  else
    let kept := if initialModeExplicit then initialMode else storedMode.getD initialMode
    let extentInvalid :=
      match storedScreenClipRect with
      | none => true
      | some rect => !(worldRect.IsRectInside rect)
    if kept = EMyPositionMode.FollowAndRotate ∧ extentInvalid = true then
      EMyPositionMode.Follow
    else
      kept

/-- Is this event a post of a blocker-carrying message? -/
def Event.isBlockerPost : Event → Bool
  | .post _ msg _ => msg.carriesBlocker
  | _ => false

/-- Is this event a post of a blocker-carrying message at High priority
to the render context? -/
def Event.isHighRenderBlockerPost : Event → Bool
  | .post ThreadName.RenderThread msg MessagePriority.High => msg.carriesBlocker
  | _ => false

/-- Is this event a `Blocker.Wait`? -/
def Event.isWait : Event → Bool
  | .wait => true
  | _ => false

/-- Is this event a resize user event? -/
def Event.isResizeUserEvent : Event → Bool
  | .userEvent (UserEvent.ResizeEvent _ _) => true
  | _ => false

/-- Is this event a commutator post at all? -/
def Event.isPost : Event → Bool
  | .post _ _ _ => true
  | _ => false

/-- Is this event the High-priority `RecoverGLResourcesMessage` post to
the render context? -/
def Event.isRecoverGLPost : Event → Bool
  | .post ThreadName.RenderThread Message.RecoverGLResourcesMessage MessagePriority.High => true
  | _ => false

/-- Is this event a `ShowChoosePositionMarkMessage` post? -/
def Event.isShowChoosePositionMarkPost : Event → Bool
  | .post _ Message.ShowChoosePositionMarkMessage _ => true
  | _ => false

/-- The blocking-call protocol over an operation's trace: exactly one
blocker-carrying post, which goes at High priority to the render
context; exactly one wait; and the wait happens after the post (and,
being in the trace, before the operation returns). -/
def blockingProtocolOk (trace : List Event) : Bool :=
  decide (trace.countP Event.isBlockerPost = 1) &&
  decide (trace.countP Event.isWait = 1) &&
  trace.all (fun e => !e.isBlockerPost || e.isHighRenderBlockerPost) &&
  decide (trace.findIdx Event.isBlockerPost < trace.findIdx Event.isWait)

/-- Helper: the identifier sequence is the arithmetic range starting one
past the current counter. -/
theorem generateSeq_eq_range' (s : EngineState) (n : Nat) :
    DrapeEngine.generateSeq s n = List.range' (s.drapeIdGenerator + 1) n := by
  induction n generalizing s with
  | zero => rfl
  | succ n ih =>
    simp [DrapeEngine.generateSeq, DrapeEngine.GenerateDrapeID, ih, List.range'_succ]

/-- Claim C1: each blocking facade operation (UpdateMapStyle,
GetVisiblePOI, GetSelectedObject, GetMyPosition) posts its
blocker-carrying message at High priority to the Render context, and
waits on the blocker exactly once, after the post and before returning
its result. -/
theorem blocking_ops_follow_protocol (glbPoint : PointD) :
    blockingProtocolOk DrapeEngine.UpdateMapStyle = true ∧
    blockingProtocolOk (DrapeEngine.GetVisiblePOI glbPoint) = true ∧
    blockingProtocolOk DrapeEngine.GetSelectedObject = true ∧
    blockingProtocolOk DrapeEngine.GetMyPosition = true :=
  ⟨rfl, rfl, rfl, rfl⟩

/-- Claim C2: `GenerateDrapeID` returns a value strictly greater than
every earlier return on the same engine (hence never reuses a value),
and the call is one atomic step whose entire effect is the
increment-and-read of the counter. -/
theorem generateDrapeID_strictly_increasing (s : EngineState) (n : Nat) :
    List.Pairwise (fun a b => a < b) (DrapeEngine.generateSeq s n) ∧
    (DrapeEngine.generateSeq s n).Nodup ∧
    DrapeEngine.GenerateDrapeID s =
      ({ s with drapeIdGenerator := s.drapeIdGenerator + 1 }, s.drapeIdGenerator + 1) := by
  have hp : List.Pairwise (fun a b => a < b) (DrapeEngine.generateSeq s n) := by
    rw [generateSeq_eq_range']
    exact List.pairwise_lt_range' _ n
  exact ⟨hp, hp.imp Nat.ne_of_lt, rfl⟩

/-- Claim C3: `Resize` with the current viewport dimensions changes no
state and emits nothing; with different dimensions it sets the viewport
to the new size and forwards exactly one resize event to the Render
worker. -/
theorem resize_idempotent_or_single_update (s : EngineState) (w h : Nat) :
    (s.viewport.width = w → s.viewport.height = h →
      DrapeEngine.Resize s w h = (s, [])) ∧
    (s.viewport.width ≠ w ∨ s.viewport.height ≠ h →
      (DrapeEngine.Resize s w h).1 =
        { s with viewport := ⟨0, 0, w, h⟩ } ∧
      (DrapeEngine.Resize s w h).2 =
        [Event.guiSetSurfaceSize w h, Event.userEvent (UserEvent.ResizeEvent w h)] ∧
      (DrapeEngine.Resize s w h).2.countP Event.isResizeUserEvent = 1) := by
  constructor
  · intro hw hh
    simp [DrapeEngine.Resize, hw, hh]
  · intro hne
    have hcond : s.viewport.height ≠ h ∨ s.viewport.width ≠ w := hne.symm
    rw [DrapeEngine.Resize, if_pos hcond]
    refine ⟨rfl, rfl, rfl⟩

/-- Witness for claim C3 at a concrete state and concrete dimensions. -/
theorem resize_idempotent_or_single_update_witness :
    DrapeEngine.Resize ⟨⟨0, 0, 100, 200⟩, false, true, 0⟩ 100 200 =
      (⟨⟨0, 0, 100, 200⟩, false, true, 0⟩, []) ∧
    (DrapeEngine.Resize ⟨⟨0, 0, 100, 200⟩, false, true, 0⟩ 150 200).2.countP
      Event.isResizeUserEvent = 1 :=
  ⟨(resize_idempotent_or_single_update ⟨⟨0, 0, 100, 200⟩, false, true, 0⟩ 100 200).1 rfl rfl,
   ((resize_idempotent_or_single_update ⟨⟨0, 0, 100, 200⟩, false, true, 0⟩ 150 200).2
     (Or.inl (by decide))).2.2⟩

/-- Claim C4 counterexample: in the destructor's concrete step sequence
the GUI singleton is NOT torn down last — the texture manager release is
the final step and follows the `DrapeGui` destruction, refuting the
claimed ordering (commutator, then texture, then GUI last). -/
theorem destructor_gui_not_last :
    DrapeEngine.destructorSteps.getLast? = some TeardownStep.textureManagerRelease ∧
    DrapeEngine.destructorSteps.indexOf TeardownStep.drapeGuiDestroy <
      DrapeEngine.destructorSteps.indexOf TeardownStep.textureManagerRelease := by
  decide

/-- Claim C4 (amended): both worker teardowns complete first (frontend
then backend), the Commutator is released only after both, the GUI
singleton is destroyed after the Commutator release, and the shared
texture-management resource is released last of all — outliving both
worker stop-calls and the GUI teardown. -/
theorem destructor_teardown_order :
    DrapeEngine.destructorSteps.indexOf TeardownStep.frontendTeardown <
      DrapeEngine.destructorSteps.indexOf TeardownStep.backendTeardown ∧
    DrapeEngine.destructorSteps.indexOf TeardownStep.backendTeardown <
      DrapeEngine.destructorSteps.indexOf TeardownStep.threadCommutatorReset ∧
    DrapeEngine.destructorSteps.indexOf TeardownStep.threadCommutatorReset <
      DrapeEngine.destructorSteps.indexOf TeardownStep.drapeGuiDestroy ∧
    DrapeEngine.destructorSteps.indexOf TeardownStep.drapeGuiDestroy <
      DrapeEngine.destructorSteps.indexOf TeardownStep.textureManagerRelease ∧
    DrapeEngine.destructorSteps.indexOf TeardownStep.textureManagerRelease =
      DrapeEngine.destructorSteps.length - 1 ∧
    DrapeEngine.destructorSteps.Nodup := by
  decide

/-- Claim C5: entering choose-position mode posts the mode-set message
with kinetic scroll forced off (regardless of the tracked flag), stops
location follow and requests the marker upload; toggling the tracked
kinetic-scroll flag while in the mode records the flag but posts
nothing; leaving the mode forces a GUI re-cache and posts the tracked
flag's current value; and neither entering nor leaving writes the
tracked flag. -/
theorem choose_position_mode_transitions (s : EngineState) (tris : List TriangleD)
    (hasPosition : Bool) (position : PointD) (b : Bool) :
    DrapeEngine.EnableChoosePositionMode s true tris hasPosition position =
      ({ s with choosePositionMode := true },
       [Event.post .RenderThread (.ChangeMyPositionModeMessage .StopFollowing) .High,
        Event.post .ResourceUploadThread .ShowChoosePositionMarkMessage .High,
        Event.post .RenderThread
          (.SetAddNewPlaceModeMessage true tris false hasPosition position) .High]) ∧
    DrapeEngine.EnableChoosePositionMode s false tris hasPosition position =
      ({ s with choosePositionMode := false },
       [Event.post .ResourceUploadThread (.GuiRecacheMessage true) .High,
        Event.post .RenderThread
          (.SetAddNewPlaceModeMessage false tris s.kineticScrollEnabled hasPosition position)
          .High]) ∧
    DrapeEngine.SetKineticScrollEnabled { s with choosePositionMode := true } b =
      ({ s with choosePositionMode := true, kineticScrollEnabled := b }, []) :=
  ⟨rfl, rfl, rfl⟩

/-- Claim C6: the constructor's initial position-tracking-mode
computation coincides with the spec's description: default pending mode
when neither an explicit nor a stored mode exists; follow-and-rotate
downgraded to follow when the remembered extent is absent or outside the
world bounds; all other cases keep the supplied or stored mode. -/
theorem initial_position_mode_matches_spec (initialMode : EMyPositionMode)
    (initialModeExplicit : Bool) (storedMode : Option EMyPositionMode)
    (storedScreenClipRect : Option RectD) (worldRect : RectD) :
    DrapeEngine.initialMyPositionMode initialMode initialModeExplicit storedMode
      storedScreenClipRect worldRect =
    initialMyPositionModeSpec initialMode initialModeExplicit storedMode
      storedScreenClipRect worldRect := by
  unfold DrapeEngine.initialMyPositionMode initialMyPositionModeSpec
  cases initialModeExplicit <;> cases storedMode <;> cases storedScreenClipRect <;>
    simp <;> split <;> simp_all <;>
    (rename_i rect hmode
     cases hr : worldRect.IsRectInside rect <;> simp [hr])

/-- Claim C7: an empty traffic coloring set makes `UpdateTraffic` a
no-op in every build; a non-empty set posts exactly one traffic-update
message to the Resource-Upload context — in a release build always, and
in a debug build whenever the assertion loop passes (no segment
unknown-classified); and in debug builds any segment classified with
the unknown speed group makes the assertion fire. -/
theorem update_traffic_cases (info : TrafficInfo) :
    (info.coloring = [] →
      ∀ debugBuild, DrapeEngine.UpdateTraffic debugBuild info = some []) ∧
    (info.coloring ≠ [] →
      DrapeEngine.UpdateTraffic false info =
        some [Event.post .ResourceUploadThread
          (.UpdateTrafficMessage [(info.mwmId, info.coloring)]) .Normal]) ∧
    (info.coloring ≠ [] → (∀ p ∈ info.coloring, p.2 ≠ SpeedGroup.Unknown) →
      DrapeEngine.UpdateTraffic true info =
        some [Event.post .ResourceUploadThread
          (.UpdateTrafficMessage [(info.mwmId, info.coloring)]) .Normal]) ∧
    ((∃ p ∈ info.coloring, p.2 = SpeedGroup.Unknown) →
      DrapeEngine.UpdateTraffic true info = none) := by
  refine ⟨?_, ?_, ?_, ?_⟩
  · intro he debugBuild
    simp [DrapeEngine.UpdateTraffic, he]
  · intro hne
    simp [DrapeEngine.UpdateTraffic, hne]
  · intro hne hall
    have hany : info.coloring.any (fun q =>
        match q.2 with
        | SpeedGroup.Unknown => true
        | _ => false) = false := by
      rw [List.any_eq_false]
      intro q hq
      have hq2 := hall q hq
      cases hm : q.2 <;> simp_all
    simp [DrapeEngine.UpdateTraffic, hne, hany]
  · rintro ⟨p, hp, hu⟩
    have hne : info.coloring ≠ [] := List.ne_nil_of_mem hp
    have hany : info.coloring.any (fun q =>
        match q.2 with
        | SpeedGroup.Unknown => true
        | _ => false) = true :=
      List.any_eq_true.mpr ⟨p, hp, by rw [hu]⟩
    simp [DrapeEngine.UpdateTraffic, hne, hany]

/-- Witness for claim C7: a concrete non-empty well-classified coloring
posts its one message in release and debug builds alike, and a concrete
unknown-classified coloring trips the debug assertion. -/
theorem update_traffic_cases_witness :
    DrapeEngine.UpdateTraffic false ⟨4, [(9, SpeedGroup.G3)]⟩ =
      some [Event.post .ResourceUploadThread
        (.UpdateTrafficMessage [(4, [(9, SpeedGroup.G3)])]) .Normal] ∧
    DrapeEngine.UpdateTraffic true ⟨4, [(9, SpeedGroup.G3)]⟩ =
      some [Event.post .ResourceUploadThread
        (.UpdateTrafficMessage [(4, [(9, SpeedGroup.G3)])]) .Normal] ∧
    DrapeEngine.UpdateTraffic true ⟨4, [(9, SpeedGroup.Unknown)]⟩ = none :=
  ⟨(update_traffic_cases ⟨4, [(9, SpeedGroup.G3)]⟩).2.1 (by decide),
   (update_traffic_cases ⟨4, [(9, SpeedGroup.G3)]⟩).2.2.1 (by decide) (by decide),
   (update_traffic_cases ⟨4, [(9, SpeedGroup.Unknown)]⟩).2.2.2
     ⟨(9, SpeedGroup.Unknown), by decide, rfl⟩⟩

/-- Claim C8 counterexample: at a concrete engine state,
`AddCustomSymbols` leaves the engine state — in particular the `DrapeID`
counter — unchanged, and its single posted message carries no `DrapeID`,
refuting the claim that a custom symbol group's creation allocates and
attaches a fresh identifier. -/
theorem add_custom_symbols_allocates_no_id :
    DrapeEngine.AddCustomSymbols ⟨⟨0, 0, 100, 100⟩, false, true, 7⟩ [(1, 2)] =
      (⟨⟨0, 0, 100, 100⟩, false, true, 7⟩,
       [Event.post .ResourceUploadThread (.AddCustomSymbolsMessage [(1, 2)]) .Normal]) ∧
    Message.attachedDrapeID (.AddCustomSymbolsMessage [(1, 2)]) = none :=
  ⟨rfl, rfl⟩

/-- Claim C8 (amended): the route-segment and route-preview creation
operations each allocate a fresh `DrapeID`, attach it to the single
creation message they post, and return it to the caller; the custom
symbol group creation posts a single message that carries no `DrapeID`
and leaves the generator untouched (its removal is targeted by map
region, not by identifier). -/
theorem creation_ops_drape_ids (s : EngineState) (startPt finishPt : PointD)
    (symbols : CustomSymbols) :
    DrapeEngine.AddRouteSegment s =
      ({ s with drapeIdGenerator := s.drapeIdGenerator + 1 },
       [Event.post .ResourceUploadThread
          (.AddRouteSegmentMessage (s.drapeIdGenerator + 1)) .Normal],
       s.drapeIdGenerator + 1) ∧
    DrapeEngine.AddRoutePreviewSegment s startPt finishPt =
      ({ s with drapeIdGenerator := s.drapeIdGenerator + 1 },
       [Event.post .RenderThread
          (.AddRoutePreviewSegmentMessage (s.drapeIdGenerator + 1) startPt finishPt) .Normal],
       s.drapeIdGenerator + 1) ∧
    Message.attachedDrapeID (.AddRouteSegmentMessage (s.drapeIdGenerator + 1)) =
      some (s.drapeIdGenerator + 1) ∧
    Message.attachedDrapeID
        (.AddRoutePreviewSegmentMessage (s.drapeIdGenerator + 1) startPt finishPt) =
      some (s.drapeIdGenerator + 1) ∧
    DrapeEngine.AddCustomSymbols s symbols =
      (s, [Event.post .ResourceUploadThread (.AddCustomSymbolsMessage symbols) .Normal]) ∧
    Message.attachedDrapeID (.AddCustomSymbolsMessage symbols) = none :=
  ⟨rfl, rfl, rfl, rfl, rfl, rfl⟩

/-- Claim C9: the applied font scale is the request clamped to
`[1/2, 2]`: `min (max x (1/2)) 2`, so a request of `5` applies `2`, a
request of `-1` applies `1/2`, and an in-range request is applied
unchanged. -/
theorem font_scale_clamped :
    (∀ x : ℚ, DrapeEngine.SetFontScaleFactor x = min (max x (1 / 2)) 2) ∧
    DrapeEngine.SetFontScaleFactor 5 = 2 ∧
    DrapeEngine.SetFontScaleFactor (-1) = 1 / 2 ∧
    (∀ x : ℚ, 1 / 2 ≤ x → x ≤ 2 → DrapeEngine.SetFontScaleFactor x = x) := by
  have hc : ∀ x : ℚ, DrapeEngine.SetFontScaleFactor x = min (max x (1 / 2)) 2 := by
    intro x
    unfold DrapeEngine.SetFontScaleFactor myClamp kMinScaleFactor kMaxScaleFactor
    rcases lt_trichotomy x (1 / 2) with h | h | h
    · rw [if_neg (by linarith), if_pos h, max_eq_right h.le, min_eq_left (by norm_num)]
    · subst h
      norm_num
    · rcases le_or_lt x 2 with h2 | h2
      · rw [if_neg (by linarith), if_neg (by linarith), max_eq_left h.le, min_eq_left h2]
      · rw [if_pos h2, max_eq_left (by linarith), min_eq_right h2.le]
  refine ⟨hc, by rw [hc]; norm_num, by rw [hc]; norm_num, ?_⟩
  intro x h1 h2
  rw [hc, max_eq_left h1, min_eq_left h2]

/-- Witness for claim C9: the in-range request `1` is applied unchanged. -/
theorem font_scale_clamped_witness : DrapeEngine.SetFontScaleFactor 1 = 1 :=
  font_scale_clamped.2.2.2 1 (by norm_num) (by norm_num)

/-- Claim C10: `Update` applies the viewport resize unconditionally
(also when the dimensions are unchanged), always posts the GL-resource
recovery message at High priority to the Render context and the GUI /
map-shape recache messages, and posts the choose-position marker message
exactly when the engine is in choose-position mode. -/
theorem update_unconditional (s : EngineState) (w h : Nat) :
    (DrapeEngine.Update s w h).1 = { s with viewport := ⟨0, 0, w, h⟩ } ∧
    (DrapeEngine.Update s w h).2.countP Event.isResizeUserEvent = 1 ∧
    (DrapeEngine.Update s s.viewport.width s.viewport.height).2.countP
      Event.isResizeUserEvent = 1 ∧
    (DrapeEngine.Update s w h).2.countP Event.isRecoverGLPost = 1 ∧
    Event.post .ResourceUploadThread (.GuiRecacheMessage false) .High ∈
      (DrapeEngine.Update s w h).2 ∧
    Event.post .ResourceUploadThread .MapShapesRecacheMessage .Normal ∈
      (DrapeEngine.Update s w h).2 ∧
    (DrapeEngine.Update s w h).2.countP Event.isShowChoosePositionMarkPost =
      (if s.choosePositionMode then 1 else 0) := by
  cases hm : s.choosePositionMode <;>
    simp [DrapeEngine.Update, DrapeEngine.ResizeImpl, DrapeEngine.RecacheGui,
      DrapeEngine.RecacheMapShapes, DrapeEngine.AddUserEvent, Viewport.SetViewport, hm,
      List.countP_cons, Event.isResizeUserEvent, Event.isRecoverGLPost,
      Event.isShowChoosePositionMarkPost]
